import Mathlib

/-!
Verification development for the outbound request middleware core
(`src/sinks/util/service.rs`): configuration merge (`unwrap_with`),
global defaults, builder methods, and the structural composition of the
single-endpoint and distributed tower pipelines.

Rust machine integers are modelled as `Nat` (with an explicit `% 2^64`
where `usize` arithmetic may wrap); fallible operations return `Option`;
`Duration` is modelled by its whole-second count, the only constructor
used by this module (`Duration::from_secs`).
-/

/-- `std::time::Duration`, restricted to the whole-second granularity used by
this module (every construction site is `Duration::from_secs`). -/
structure Duration where
  secs : Nat
deriving DecidableEq

def Duration.from_secs (s : Nat) : Duration := ⟨s⟩

/-- Modelled from the spec: `JitterMode` lives in `retries.rs`, which is not
among the sources; the spec gives it the values `none` and `full`, with the
global default `full`. -/
inductive JitterMode where
  | none
  | full
deriving DecidableEq

def JitterMode.default : JitterMode := JitterMode.full

/-- Modelled from the spec: `Concurrency` lives in `concurrency.rs`, which is
not among the sources; the spec gives the three forms `none`, `adaptive` and
`fixed(N>0)`. -/
inductive Concurrency where
  | none
  | adaptive
  | fixed (limit : Nat)
deriving DecidableEq

/-- Modelled from the spec: `parse_concurrency` lives in `concurrency.rs`,
which is not among the sources. Per the spec, `none` resolves to the absent
settings-level value, `adaptive` also resolves to absent (with the adaptive
controller engaged), and `fixed(N)` resolves to `Some(N)`. -/
def Concurrency.parse_concurrency : Concurrency → Option Nat
  | Concurrency.none => Option.none
  | Concurrency.adaptive => Option.none
  | Concurrency.fixed limit => Option.some limit

/-- Modelled from the spec: `AdaptiveConcurrencySettings` is opaque nested
tuning (decay, rtt windowing, initial concurrency, ...); it is abstracted
here as a single value that the module only carries through. -/
structure AdaptiveConcurrencySettings where
  tuning : Nat
deriving DecidableEq

def AdaptiveConcurrencySettings.default : AdaptiveConcurrencySettings := ⟨0⟩

/-- Modelled from the spec: `HealthConfig` lives in `health.rs`, which is not
among the sources; it configures polling cadence and failure thresholds,
abstracted here as a single value that the module only carries through. -/
structure HealthConfig where
  cadence : Nat
deriving DecidableEq

/-- Observability counter of currently-healthy endpoints; carries no data
relevant to pipeline structure. -/
inductive OpenGauge where
  | mk
deriving DecidableEq

def OpenGauge.new : OpenGauge := OpenGauge.mk

/-- Modelled from the spec: `FibonacciRetryPolicy` lives in `retries.rs`,
which is not among the sources; its fields are taken to be the arguments of
its constructor `new` as called from `TowerRequestSettings::retry_policy`. -/
structure FibonacciRetryPolicy (L : Type) where
  retry_attempts : Nat
  retry_initial_backoff : Duration
  retry_max_duration : Duration
  logic : L
  jitter_mode : JitterMode

def FibonacciRetryPolicy.new {L : Type} (retry_attempts : Nat)
    (retry_initial_backoff : Duration) (retry_max_duration : Duration)
    (logic : L) (jitter_mode : JitterMode) : FibonacciRetryPolicy L :=
  ⟨retry_attempts, retry_initial_backoff, retry_max_duration, logic, jitter_mode⟩

/-- `TowerRequestConfig`: user-facing middleware settings, optional fields
absent meaning "inherit" (`service.rs` lines 96-153). `u64`/`usize` fields
are `Nat` (64-bit platform). -/
structure TowerRequestConfig where
  concurrency : Option Concurrency
  timeout_secs : Option Nat
  rate_limit_duration_secs : Option Nat
  rate_limit_num : Option Nat
  retry_attempts : Option Nat
  retry_max_duration_secs : Option Nat
  retry_initial_backoff_secs : Option Nat
  retry_jitter_mode : JitterMode
  adaptive_concurrency : AdaptiveConcurrencySettings
deriving DecidableEq

def default_concurrency : Option Concurrency := Option.some Concurrency.adaptive

def default_timeout_secs : Option Nat := Option.some 60

def default_rate_limit_duration_secs : Option Nat := Option.some 1

/-- `i64::max_value() as u64` (the source uses `i64` to avoid a TOML
deserialize issue), i.e. `2^63 - 1`. -/
def default_rate_limit_num : Option Nat := Option.some (2 ^ 63 - 1)

/-- `isize::max_value() as usize` on a 64-bit platform, i.e. `2^63 - 1`. -/
def default_retry_attempts : Option Nat := Option.some (2 ^ 63 - 1)

def default_retry_max_duration_secs : Option Nat := Option.some 30

def default_retry_initial_backoff_secs : Option Nat := Option.some 1

/-- `impl Default for TowerRequestConfig` (`service.rs` lines 185-199). -/
def TowerRequestConfig.default : TowerRequestConfig :=
  { concurrency := default_concurrency
    timeout_secs := default_timeout_secs
    rate_limit_duration_secs := default_rate_limit_duration_secs
    rate_limit_num := default_rate_limit_num
    retry_attempts := default_retry_attempts
    retry_max_duration_secs := default_retry_max_duration_secs
    retry_initial_backoff_secs := default_retry_initial_backoff_secs
    adaptive_concurrency := AdaptiveConcurrencySettings.default
    retry_jitter_mode := JitterMode.default }

/-- The config obtained from parsing an empty document: every optional field
absent, the two non-optional fields at their serde defaults (as asserted by
the source test `empty_config_unwrap_with`). -/
def TowerRequestConfig.empty : TowerRequestConfig :=
  { concurrency := Option.none
    timeout_secs := Option.none
    rate_limit_duration_secs := Option.none
    rate_limit_num := Option.none
    retry_attempts := Option.none
    retry_max_duration_secs := Option.none
    retry_initial_backoff_secs := Option.none
    retry_jitter_mode := JitterMode.default
    adaptive_concurrency := AdaptiveConcurrencySettings.default }

/-- Builder method `TowerRequestConfig::concurrency` (`service.rs` line 202);
renamed with a `with_` prefix because in Lean the field projection already
occupies the Rust method name. -/
def TowerRequestConfig.with_concurrency (self : TowerRequestConfig)
    (concurrency : Concurrency) : TowerRequestConfig :=
  { self with concurrency := Option.some concurrency }

/-- Builder method `TowerRequestConfig::timeout_secs` (`service.rs` line 207). -/
def TowerRequestConfig.with_timeout_secs (self : TowerRequestConfig)
    (timeout_secs : Nat) : TowerRequestConfig :=
  { self with timeout_secs := Option.some timeout_secs }

/-- Builder method `TowerRequestConfig::rate_limit_duration_secs`
(`service.rs` line 212). -/
def TowerRequestConfig.with_rate_limit_duration_secs (self : TowerRequestConfig)
    (rate_limit_duration_secs : Nat) : TowerRequestConfig :=
  { self with rate_limit_duration_secs := Option.some rate_limit_duration_secs }

/-- Builder method `TowerRequestConfig::rate_limit_num` (`service.rs` line 217). -/
def TowerRequestConfig.with_rate_limit_num (self : TowerRequestConfig)
    (rate_limit_num : Nat) : TowerRequestConfig :=
  { self with rate_limit_num := Option.some rate_limit_num }

/-- Builder method `TowerRequestConfig::retry_attempts` (`service.rs` line 222). -/
def TowerRequestConfig.with_retry_attempts (self : TowerRequestConfig)
    (retry_attempts : Nat) : TowerRequestConfig :=
  { self with retry_attempts := Option.some retry_attempts }

/-- Builder method `TowerRequestConfig::retry_max_duration_secs`
(`service.rs` line 227). -/
def TowerRequestConfig.with_retry_max_duration_secs (self : TowerRequestConfig)
    (retry_max_duration_secs : Nat) : TowerRequestConfig :=
  { self with retry_max_duration_secs := Option.some retry_max_duration_secs }

/-- Builder method `TowerRequestConfig::retry_initial_backoff_secs`
(`service.rs` line 232). -/
def TowerRequestConfig.with_retry_initial_backoff_secs (self : TowerRequestConfig)
    (retry_initial_backoff_secs : Nat) : TowerRequestConfig :=
  { self with retry_initial_backoff_secs := Option.some retry_initial_backoff_secs }

/-- `TowerRequestSettings`: the resolved settings (`service.rs` lines 286-297). -/
structure TowerRequestSettings where
  concurrency : Option Nat
  timeout : Duration
  rate_limit_duration : Duration
  rate_limit_num : Nat
  retry_attempts : Nat
  retry_max_duration : Duration
  retry_initial_backoff : Duration
  adaptive_concurrency : AdaptiveConcurrencySettings
  retry_jitter_mode : JitterMode
deriving DecidableEq

/-- `TowerRequestConfig::unwrap_with` (`service.rs` lines 237-283). Rust's
`Option::unwrap` (which panics on `None`) is modelled by `Option.bind`: a
`none` result stands for the panic, so totality of the source function is the
statement that this model always returns `some`. -/
def TowerRequestConfig.unwrap_with (self defaults : TowerRequestConfig) :
    Option TowerRequestSettings :=
  ((self.concurrency.or defaults.concurrency).or default_concurrency).bind fun concurrency =>
  ((self.timeout_secs.or defaults.timeout_secs).or default_timeout_secs).bind fun timeout_secs =>
  ((self.rate_limit_duration_secs.or defaults.rate_limit_duration_secs).or
      default_rate_limit_duration_secs).bind fun rate_limit_duration_secs =>
  ((self.rate_limit_num.or defaults.rate_limit_num).or default_rate_limit_num).bind
    fun rate_limit_num =>
  ((self.retry_attempts.or defaults.retry_attempts).or default_retry_attempts).bind
    fun retry_attempts =>
  ((self.retry_max_duration_secs.or defaults.retry_max_duration_secs).or
      default_retry_max_duration_secs).bind fun retry_max_duration_secs =>
  ((self.retry_initial_backoff_secs.or defaults.retry_initial_backoff_secs).or
      default_retry_initial_backoff_secs).bind fun retry_initial_backoff_secs =>
  Option.some
    { concurrency := concurrency.parse_concurrency
      timeout := Duration.from_secs timeout_secs
      rate_limit_duration := Duration.from_secs rate_limit_duration_secs
      rate_limit_num := rate_limit_num
      retry_attempts := retry_attempts
      retry_max_duration := Duration.from_secs retry_max_duration_secs
      retry_initial_backoff := Duration.from_secs retry_initial_backoff_secs
      adaptive_concurrency := self.adaptive_concurrency
      retry_jitter_mode := self.retry_jitter_mode }

/-- `TowerRequestSettings::retry_policy` (`service.rs` lines 300-308). -/
def TowerRequestSettings.retry_policy {L : Type} (self : TowerRequestSettings)
    (logic : L) : FibonacciRetryPolicy L :=
  FibonacciRetryPolicy.new self.retry_attempts self.retry_initial_backoff
    self.retry_max_duration logic self.retry_jitter_mode

/-- `tower::discover::Change`: an `Insert(key, service)` or `Remove(key)`
event on the discovery stream. -/
inductive Change (K S : Type) where
  | insert (key : K) (svc : S)
  | remove (key : K)

/-- Structural tree of the tower service stacks this module builds. Each
constructor records the configuration data passed to the corresponding tower
layer at its construction site; `inner` is the caller-supplied sender. The
`balance` node holds the (finite) discovery stream handed to
`Balance::new` — `stream::iter` of a collected vector is modelled by the
underlying list, `crate::Error` by `String`. -/
inductive SvcTree (σ L HL : Type) where
  | inner (svc : σ)
  | rateLimit (num : Nat) (per : Duration) (s : SvcTree σ L HL)
  | adaptiveConcurrency (limit : Option Nat) (settings : AdaptiveConcurrencySettings)
      (logic : L) (s : SvcTree σ L HL)
  | retry (policy : FibonacciRetryPolicy L) (s : SvcTree σ L HL)
  | timeout (t : Duration) (s : SvcTree σ L HL)
  | health (cfg : HealthConfig) (logic : HL) (endpoint : String) (s : SvcTree σ L HL)
  | buffer (capacity : Nat) (s : SvcTree σ L HL)
  | balance (discovery : List (Except String (Change Nat (SvcTree σ L HL))))

/-- `tower::ServiceBuilder`: a stack of layers awaiting an innermost service.
The first layer added is outermost in the finished stack. -/
def ServiceBuilder (σ L HL : Type) : Type :=
  SvcTree σ L HL → SvcTree σ L HL

def ServiceBuilder.new {σ L HL : Type} : ServiceBuilder σ L HL := fun s => s

/-- `ServiceBuilder::layer`: push a layer inside the already-added ones. -/
def ServiceBuilder.layer {σ L HL : Type} (b : ServiceBuilder σ L HL)
    (l : SvcTree σ L HL → SvcTree σ L HL) : ServiceBuilder σ L HL :=
  fun s => b (l s)

def ServiceBuilder.rate_limit {σ L HL : Type} (b : ServiceBuilder σ L HL)
    (num : Nat) (per : Duration) : ServiceBuilder σ L HL :=
  b.layer (SvcTree.rateLimit num per)

def ServiceBuilder.retry {σ L HL : Type} (b : ServiceBuilder σ L HL)
    (policy : FibonacciRetryPolicy L) : ServiceBuilder σ L HL :=
  b.layer (SvcTree.retry policy)

def ServiceBuilder.timeout {σ L HL : Type} (b : ServiceBuilder σ L HL)
    (t : Duration) : ServiceBuilder σ L HL :=
  b.layer (SvcTree.timeout t)

/-- `ServiceBuilder::service`: wrap the given innermost service in the
accumulated layer stack. -/
def ServiceBuilder.service {σ L HL : Type} (b : ServiceBuilder σ L HL)
    (s : SvcTree σ L HL) : SvcTree σ L HL :=
  b s

/-- `AdaptiveConcurrencyLimitLayer::new` as used at `service.rs` lines 385-389
and 439-443: a layer imposing the (fixed or adaptive) concurrency limit,
classifying outcomes with the given retry logic. -/
def AdaptiveConcurrencyLimitLayer.new {σ L HL : Type} (limit : Option Nat)
    (settings : AdaptiveConcurrencySettings) (logic : L) :
    SvcTree σ L HL → SvcTree σ L HL :=
  SvcTree.adaptiveConcurrency limit settings logic

/-- `tower::buffer::BufferLayer::new` with the given capacity bound. -/
def BufferLayer.new {σ L HL : Type} (capacity : Nat) :
    SvcTree σ L HL → SvcTree σ L HL :=
  SvcTree.buffer capacity

/-- Modelled from the spec: `HealthConfig::build` lives in `health.rs`, which
is not among the sources; per the spec it wraps one endpoint's inner chain in
the health gate, keeping the endpoint label for diagnostics and the open
gauge for observability. -/
def HealthConfig.build {σ L HL : Type} (cfg : HealthConfig) (logic : HL)
    (svc : SvcTree σ L HL) (_g : OpenGauge) (endpoint : String) :
    SvcTree σ L HL :=
  SvcTree.health cfg logic endpoint svc

/-- `tower::balance::p2c::Balance::new` over the pinned discovery stream. -/
def Balance.new {σ L HL : Type}
    (discovery : List (Except String (Change Nat (SvcTree σ L HL)))) :
    SvcTree σ L HL :=
  SvcTree.balance discovery

/-- `TowerRequestLayer` (`service.rs` lines 414-419); the `PhantomData`
marker is dropped. -/
structure TowerRequestLayer (L : Type) where
  settings : TowerRequestSettings
  retry_logic : L

/-- `impl Layer for TowerRequestLayer`, method `layer`
(`service.rs` lines 432-447). -/
def TowerRequestLayer.layer {σ L HL : Type} (self : TowerRequestLayer L)
    (inner : σ) : SvcTree σ L HL :=
  let policy := self.settings.retry_policy self.retry_logic
  (((((ServiceBuilder.new).rate_limit
          self.settings.rate_limit_num self.settings.rate_limit_duration).layer
        (AdaptiveConcurrencyLimitLayer.new self.settings.concurrency
          self.settings.adaptive_concurrency self.retry_logic)).retry
      policy).timeout self.settings.timeout).service (SvcTree.inner inner)

/-- `TowerRequestSettings::distributed_service` (`service.rs` lines 359-411).
`services.len() * 200` is `usize` multiplication, which wraps modulo `2^64`
in release builds; `enumerate` is `List.enum`. -/
def TowerRequestSettings.distributed_service {σ L HL : Type}
    (self : TowerRequestSettings) (retry_logic : L)
    (services : List (String × σ)) (health_config : HealthConfig)
    (health_logic : HL) : SvcTree σ L HL :=
  let policy := self.retry_policy retry_logic
  let opn := OpenGauge.new
  let max_concurrency := services.length * 200 % 2 ^ 64
  let changes :=
    (services.map (fun (p : String × σ) =>
        ((ServiceBuilder.new).layer
            (AdaptiveConcurrencyLimitLayer.new self.concurrency
              self.adaptive_concurrency retry_logic)).service
          (health_config.build health_logic
            (((ServiceBuilder.new).timeout self.timeout).service
              (SvcTree.inner p.2))
            opn p.1))).enum.map
      (fun q => Except.ok (Change.insert q.1 q.2))
  ((((ServiceBuilder.new).rate_limit self.rate_limit_num
        self.rate_limit_duration).retry policy).layer
      (BufferLayer.new max_concurrency)).service (Balance.new changes)

/-- Capacity of the outermost `Buffer` layer of a stack, when the stack has
one above any `balance` node. -/
def bufferCapacity {σ L HL : Type} : SvcTree σ L HL → Option Nat
  | SvcTree.inner _ => Option.none
  | SvcTree.rateLimit _ _ s => bufferCapacity s
  | SvcTree.adaptiveConcurrency _ _ _ s => bufferCapacity s
  | SvcTree.retry _ s => bufferCapacity s
  | SvcTree.timeout _ s => bufferCapacity s
  | SvcTree.health _ _ _ s => bufferCapacity s
  | SvcTree.buffer capacity _ => Option.some capacity
  | SvcTree.balance _ => Option.none

/-- The discovery stream handed to the balancer of a stack, read off the
first `balance` node along the spine. -/
def discoveryItems {σ L HL : Type} :
    SvcTree σ L HL → Option (List (Except String (Change Nat (SvcTree σ L HL))))
  | SvcTree.inner _ => Option.none
  | SvcTree.rateLimit _ _ s => discoveryItems s
  | SvcTree.adaptiveConcurrency _ _ _ s => discoveryItems s
  | SvcTree.retry _ s => discoveryItems s
  | SvcTree.timeout _ s => discoveryItems s
  | SvcTree.health _ _ _ s => discoveryItems s
  | SvcTree.buffer _ s => discoveryItems s
  | SvcTree.balance discovery => Option.some discovery

/-- A TOML value, restricted to the forms the recognized configuration keys
take: integers, strings and nested tables. A parsed document is a list of
key/value pairs. -/
inductive TomlValue where
  | int (i : Int)
  | str (s : String)
  | table (kvs : List (String × TomlValue))

/-- First binding of a key in a parsed document. -/
def lookupKey (kvs : List (String × TomlValue)) (k : String) : Option TomlValue :=
  (kvs.find? (fun kv => kv.1 == k)).map (fun kv => kv.2)

/-- serde deserialization of a `u64` field: any integer in `[0, 2^64)`. -/
def parseU64 : TomlValue → Option Nat
  | TomlValue.int i => if 0 ≤ i ∧ i < 2 ^ 64 then Option.some i.toNat else Option.none
  | _ => Option.none

/-- Modelled from the spec: deserialization of `Concurrency` lives in
`concurrency.rs`, which is not among the sources. Per the spec (and the
source test `concurrency_param_works`) it accepts an integer `≥ 1` as
`fixed`, the strings `"adaptive"` and `"none"`, and rejects `0`, negative
numbers and unknown strings. -/
def parseConcurrencyValue : TomlValue → Option Concurrency
  | TomlValue.int i =>
      if 1 ≤ i ∧ i < 2 ^ 64 then Option.some (Concurrency.fixed i.toNat) else Option.none
  | TomlValue.str s =>
      if s = "adaptive" then Option.some Concurrency.adaptive
      else if s = "none" then Option.some Concurrency.none
      else Option.none
  | _ => Option.none

/-- Modelled from the spec: deserialization of `JitterMode` (`retries.rs`,
not among the sources): the strings `"none"` and `"full"`. -/
def parseJitterMode : TomlValue → Option JitterMode
  | TomlValue.str s =>
      if s = "none" then Option.some JitterMode.none
      else if s = "full" then Option.some JitterMode.full
      else Option.none
  | _ => Option.none

/-- Modelled from the spec: deserialization of the opaque
`adaptive_concurrency` nested object, read through its single abstracted
value. -/
def parseAdaptiveConcurrency : TomlValue → Option AdaptiveConcurrencySettings
  | TomlValue.table kvs =>
      match lookupKey kvs "tuning" with
      | Option.some v => (parseU64 v).map (fun n => ⟨n⟩)
      | Option.none => Option.some AdaptiveConcurrencySettings.default
  | _ => Option.none

/-- An optional field: absent parses to `none`; present, its value must
parse. -/
def parseOptField {α : Type} (kvs : List (String × TomlValue)) (k : String)
    (p : TomlValue → Option α) : Option (Option α) :=
  match lookupKey kvs k with
  | Option.none => Option.some Option.none
  | Option.some v => (p v).map Option.some

/-- A `#[serde(default)]` field: absent parses to the default; present, its
value must parse. -/
def parseDefaultField {α : Type} (kvs : List (String × TomlValue)) (k : String)
    (p : TomlValue → Option α) (d : α) : Option α :=
  match lookupKey kvs k with
  | Option.none => Option.some d
  | Option.some v => p v

/-- Modelled from the spec: the derived serde deserializer for
`TowerRequestConfig` (the field declarations are `service.rs` lines 96-153;
the derive itself is generated code). Every optional field is a plain
`Option` of an integer type except `concurrency`; unknown keys are ignored
(serde default). `none` is a parse error. -/
def parseTowerRequestConfig (kvs : List (String × TomlValue)) :
    Option TowerRequestConfig :=
  (parseOptField kvs "concurrency" parseConcurrencyValue).bind fun concurrency =>
  (parseOptField kvs "timeout_secs" parseU64).bind fun timeout_secs =>
  (parseOptField kvs "rate_limit_duration_secs" parseU64).bind
    fun rate_limit_duration_secs =>
  (parseOptField kvs "rate_limit_num" parseU64).bind fun rate_limit_num =>
  (parseOptField kvs "retry_attempts" parseU64).bind fun retry_attempts =>
  (parseOptField kvs "retry_max_duration_secs" parseU64).bind
    fun retry_max_duration_secs =>
  (parseOptField kvs "retry_initial_backoff_secs" parseU64).bind
    fun retry_initial_backoff_secs =>
  (parseDefaultField kvs "retry_jitter_mode" parseJitterMode JitterMode.default).bind
    fun retry_jitter_mode =>
  (parseDefaultField kvs "adaptive_concurrency" parseAdaptiveConcurrency
      AdaptiveConcurrencySettings.default).bind fun adaptive_concurrency =>
  Option.some
    { concurrency := concurrency
      timeout_secs := timeout_secs
      rate_limit_duration_secs := rate_limit_duration_secs
      rate_limit_num := rate_limit_num
      retry_attempts := retry_attempts
      retry_max_duration_secs := retry_max_duration_secs
      retry_initial_backoff_secs := retry_initial_backoff_secs
      retry_jitter_mode := retry_jitter_mode
      adaptive_concurrency := adaptive_concurrency }

def serializeConcurrency : Concurrency → TomlValue
  | Concurrency.none => TomlValue.str "none"
  | Concurrency.adaptive => TomlValue.str "adaptive"
  | Concurrency.fixed limit => TomlValue.int (Int.ofNat limit)

def serializeJitterMode : JitterMode → TomlValue
  | JitterMode.none => TomlValue.str "none"
  | JitterMode.full => TomlValue.str "full"

/-- A present optional integer field serializes to its key; an absent one is
skipped. -/
def serializeOptNat (k : String) : Option Nat → List (String × TomlValue)
  | Option.some n => [(k, TomlValue.int (Int.ofNat n))]
  | Option.none => []

/-- Modelled from the spec: the derived serde serializer for
`TowerRequestConfig`; absent optional fields are skipped, the two
`#[serde(default)]` fields are always emitted. -/
def serializeTowerRequestConfig (c : TowerRequestConfig) :
    List (String × TomlValue) :=
  (match c.concurrency with
    | Option.some v => [("concurrency", serializeConcurrency v)]
    | Option.none => []) ++
  serializeOptNat "timeout_secs" c.timeout_secs ++
  serializeOptNat "rate_limit_duration_secs" c.rate_limit_duration_secs ++
  serializeOptNat "rate_limit_num" c.rate_limit_num ++
  serializeOptNat "retry_attempts" c.retry_attempts ++
  serializeOptNat "retry_max_duration_secs" c.retry_max_duration_secs ++
  serializeOptNat "retry_initial_backoff_secs" c.retry_initial_backoff_secs ++
  [("retry_jitter_mode", serializeJitterMode c.retry_jitter_mode),
   ("adaptive_concurrency",
     TomlValue.table [("tuning", TomlValue.int (Int.ofNat c.adaptive_concurrency.tuning))])]

/-- The spec's field-resolution rule, as stated in §4.1: select the first
non-absent of user value, component default, and built-in global default. -/
def first_present {α : Type} (user component global : Option α) : Option α :=
  user.or (component.or global)

theorem or_or_some {α : Type} (a b : Option α) (c : α) :
    (a.or b).or (Option.some c) = Option.some (a.getD (b.getD c)) := by
  cases a <;> cases b <;> rfl

theorem first_present_some {α : Type} (a b : Option α) (c : α) :
    first_present a b (Option.some c) = Option.some (a.getD (b.getD c)) := by
  cases a <;> cases b <;> rfl

/-- C1: for every user config and component-defaults config, and for every
field, the resolved settings produced by `unwrap_with` equal the first
present value among the user's field, the component default's field and the
built-in global default for that field (applying the field's representation
map: `parse_concurrency` for `concurrency`, `Duration::from_secs` for the
duration fields; the two non-optional fields are always present on the user
config and are taken from it). -/
theorem unwrap_with_resolves_first_present (u d : TowerRequestConfig) :
    ∃ s, u.unwrap_with d = Option.some s ∧
      (first_present u.concurrency d.concurrency default_concurrency).map
          Concurrency.parse_concurrency = Option.some s.concurrency ∧
      (first_present u.timeout_secs d.timeout_secs default_timeout_secs).map
          Duration.from_secs = Option.some s.timeout ∧
      (first_present u.rate_limit_duration_secs d.rate_limit_duration_secs
          default_rate_limit_duration_secs).map Duration.from_secs =
        Option.some s.rate_limit_duration ∧
      first_present u.rate_limit_num d.rate_limit_num default_rate_limit_num =
        Option.some s.rate_limit_num ∧
      first_present u.retry_attempts d.retry_attempts default_retry_attempts =
        Option.some s.retry_attempts ∧
      (first_present u.retry_max_duration_secs d.retry_max_duration_secs
          default_retry_max_duration_secs).map Duration.from_secs =
        Option.some s.retry_max_duration ∧
      (first_present u.retry_initial_backoff_secs d.retry_initial_backoff_secs
          default_retry_initial_backoff_secs).map Duration.from_secs =
        Option.some s.retry_initial_backoff ∧
      s.retry_jitter_mode = u.retry_jitter_mode ∧
      s.adaptive_concurrency = u.adaptive_concurrency := by
  refine ⟨{ concurrency :=
              (u.concurrency.getD (d.concurrency.getD Concurrency.adaptive)).parse_concurrency
            timeout := Duration.from_secs (u.timeout_secs.getD (d.timeout_secs.getD 60))
            rate_limit_duration :=
              Duration.from_secs
                (u.rate_limit_duration_secs.getD (d.rate_limit_duration_secs.getD 1))
            rate_limit_num := u.rate_limit_num.getD (d.rate_limit_num.getD (2 ^ 63 - 1))
            retry_attempts := u.retry_attempts.getD (d.retry_attempts.getD (2 ^ 63 - 1))
            retry_max_duration :=
              Duration.from_secs
                (u.retry_max_duration_secs.getD (d.retry_max_duration_secs.getD 30))
            retry_initial_backoff :=
              Duration.from_secs
                (u.retry_initial_backoff_secs.getD (d.retry_initial_backoff_secs.getD 1))
            adaptive_concurrency := u.adaptive_concurrency
            retry_jitter_mode := u.retry_jitter_mode }, ?_, ?_, ?_, ?_, ?_, ?_, ?_, ?_, ?_, ?_⟩
  · simp [TowerRequestConfig.unwrap_with, default_concurrency, default_timeout_secs,
      default_rate_limit_duration_secs, default_rate_limit_num, default_retry_attempts,
      default_retry_max_duration_secs, default_retry_initial_backoff_secs, or_or_some]
  · simp [first_present_some, default_concurrency]
  · simp [first_present_some, default_timeout_secs]
  · simp [first_present_some, default_rate_limit_duration_secs]
  · simp [first_present_some, default_rate_limit_num]
  · simp [first_present_some, default_retry_attempts]
  · simp [first_present_some, default_retry_max_duration_secs]
  · simp [first_present_some, default_retry_initial_backoff_secs]
  · rfl
  · rfl

/-- C2: resolving an empty user config against an empty component-defaults
config yields timeout 60s, rate-limit window 1s, rate-limit count
`i64::MAX = 2^63 - 1`, retry attempts `isize::MAX = 2^63 - 1`, retry max
duration 30s, retry initial backoff 1s, and concurrency at the adaptive
sentinel: no fixed limit (`none`), so the adaptive controller is engaged. -/
theorem empty_merge_settings :
    TowerRequestConfig.empty.unwrap_with TowerRequestConfig.empty =
      Option.some
        { concurrency := Option.none
          timeout := Duration.from_secs 60
          rate_limit_duration := Duration.from_secs 1
          rate_limit_num := 2 ^ 63 - 1
          retry_attempts := 2 ^ 63 - 1
          retry_max_duration := Duration.from_secs 30
          retry_initial_backoff := Duration.from_secs 1
          adaptive_concurrency := AdaptiveConcurrencySettings.default
          retry_jitter_mode := JitterMode.full } := by
  rfl

/-- C7: `unwrap_with` is total: for every pair of configs it returns a
settings value (every field populated), never hitting the panicking branch
of any of its `unwrap` calls — in this model, it never returns `none`. -/
theorem unwrap_with_total (u d : TowerRequestConfig) :
    ∃ s, u.unwrap_with d = Option.some s := by
  have h : (u.unwrap_with d).isSome := by
    simp [TowerRequestConfig.unwrap_with, default_concurrency, default_timeout_secs,
      default_rate_limit_duration_secs, default_rate_limit_num, default_retry_attempts,
      default_retry_max_duration_secs, default_retry_initial_backoff_secs, or_or_some]
  exact Option.isSome_iff_exists.mp h

/-- C10: each builder method returns a config in which the one named field is
set to `Some` of the given value and every other field is unchanged from the
receiver (whole-record equality with a single-field update). -/
theorem builder_methods_frame (c : TowerRequestConfig) (v : Concurrency) (n : Nat) :
    c.with_concurrency v = { c with concurrency := Option.some v } ∧
    c.with_timeout_secs n = { c with timeout_secs := Option.some n } ∧
    c.with_rate_limit_duration_secs n =
      { c with rate_limit_duration_secs := Option.some n } ∧
    c.with_rate_limit_num n = { c with rate_limit_num := Option.some n } ∧
    c.with_retry_attempts n = { c with retry_attempts := Option.some n } ∧
    c.with_retry_max_duration_secs n =
      { c with retry_max_duration_secs := Option.some n } ∧
    c.with_retry_initial_backoff_secs n =
      { c with retry_initial_backoff_secs := Option.some n } :=
  ⟨rfl, rfl, rfl, rfl, rfl, rfl, rfl⟩

/-- C3: the single-endpoint pipeline built by `TowerRequestLayer::layer`
composes, outer to inner: `RateLimit`, then `AdaptiveConcurrency`, then
`Retry` with the Fibonacci policy built from the settings, then `Timeout`,
then the inner sender. -/
theorem single_pipeline_layer_order {σ L HL : Type} (settings : TowerRequestSettings)
    (logic : L) (inner : σ) :
    (TowerRequestLayer.layer ⟨settings, logic⟩ inner : SvcTree σ L HL) =
      SvcTree.rateLimit settings.rate_limit_num settings.rate_limit_duration
        (SvcTree.adaptiveConcurrency settings.concurrency
          settings.adaptive_concurrency logic
          (SvcTree.retry (settings.retry_policy logic)
            (SvcTree.timeout settings.timeout (SvcTree.inner inner)))) :=
  rfl

/-- C4: `distributed_service` wraps each configured endpoint's inner sender
as `AdaptiveConcurrency(Health(Timeout(inner)))` and composes, outer to
inner around the balancer: `RateLimit`, then `Retry`, then `Buffer`, then
`Balance` over the discovery stream of per-endpoint chains. -/
theorem distributed_pipeline_layer_order {σ L HL : Type}
    (settings : TowerRequestSettings) (logic : L) (services : List (String × σ))
    (hc : HealthConfig) (hl : HL) :
    settings.distributed_service logic services hc hl =
      SvcTree.rateLimit settings.rate_limit_num settings.rate_limit_duration
        (SvcTree.retry (settings.retry_policy logic)
          (SvcTree.buffer (services.length * 200 % 2 ^ 64)
            (SvcTree.balance
              ((services.map (fun p =>
                  SvcTree.adaptiveConcurrency settings.concurrency
                    settings.adaptive_concurrency logic
                    (SvcTree.health hc hl p.1
                      (SvcTree.timeout settings.timeout
                        (SvcTree.inner p.2))))).enum.map
                (fun q => Except.ok (Change.insert q.1 q.2)))))) :=
  rfl

/-- C5: the capacity of the `Buffer` layer between the retry layer and the
balancer in the distributed pipeline equals the number of configured
endpoints multiplied by 200 (the hypothesis is the 64-bit side condition
under which the `usize` product does not wrap). -/
theorem distributed_buffer_capacity {σ L HL : Type}
    (settings : TowerRequestSettings) (logic : L) (services : List (String × σ))
    (hc : HealthConfig) (hl : HL) (h : services.length * 200 < 2 ^ 64) :
    bufferCapacity (settings.distributed_service logic services hc hl) =
      Option.some (services.length * 200) := by
  simp only [TowerRequestSettings.distributed_service, ServiceBuilder.new,
    ServiceBuilder.layer, ServiceBuilder.rate_limit, ServiceBuilder.retry,
    ServiceBuilder.timeout, ServiceBuilder.service, BufferLayer.new, Balance.new,
    AdaptiveConcurrencyLimitLayer.new, HealthConfig.build, bufferCapacity]
  rw [Nat.mod_eq_of_lt h]

/-- Concrete resolved settings used to witness the distributed-pipeline
theorems. -/
def sampleSettings : TowerRequestSettings :=
  { concurrency := Option.none
    timeout := Duration.from_secs 60
    rate_limit_duration := Duration.from_secs 1
    rate_limit_num := 5
    retry_attempts := 2
    retry_max_duration := Duration.from_secs 30
    retry_initial_backoff := Duration.from_secs 1
    adaptive_concurrency := AdaptiveConcurrencySettings.default
    retry_jitter_mode := JitterMode.full }

/-- Three concrete endpoints (labels with inner senders abstracted as
numbers). -/
def sampleEndpoints : List (String × Nat) := [("a", 10), ("b", 11), ("c", 12)]

theorem distributed_buffer_capacity_witness :
    bufferCapacity (sampleSettings.distributed_service () sampleEndpoints ⟨7⟩ ()) =
      Option.some 600 :=
  distributed_buffer_capacity sampleSettings () sampleEndpoints ⟨7⟩ () (by decide)

/-- C6: the discovery stream handed to the balancer consists of exactly one
`Insert(key, chain)` item per configured endpoint, in configuration order
with keys the ordinal indices `0..n-1`, each chain wrapping that endpoint's
inner sender; every item is an `Insert` (no `Remove`, no error), and the
finite stream yields nothing after its `n` items. -/
theorem discovery_stream_inserts {σ L HL : Type} (settings : TowerRequestSettings)
    (logic : L) (services : List (String × σ)) (hc : HealthConfig) (hl : HL) :
    ∃ items,
      discoveryItems (settings.distributed_service logic services hc hl) =
        Option.some items ∧
      items.length = services.length ∧
      (∀ (j : Nat) (ep : String) (inner : σ), services[j]? = Option.some (ep, inner) →
        items[j]? = Option.some (Except.ok (Change.insert j
          (SvcTree.adaptiveConcurrency settings.concurrency
            settings.adaptive_concurrency logic
            (SvcTree.health hc hl ep
              (SvcTree.timeout settings.timeout (SvcTree.inner inner))))))) ∧
      (∀ (j : Nat) (ch : Except String (Change Nat (SvcTree σ L HL))),
        items[j]? = Option.some ch →
        ∃ key svc, ch = Except.ok (Change.insert key svc)) := by
  refine ⟨(services.map (fun p =>
      SvcTree.adaptiveConcurrency settings.concurrency
        settings.adaptive_concurrency logic
        (SvcTree.health hc hl p.1
          (SvcTree.timeout settings.timeout (SvcTree.inner p.2))))).enum.map
      (fun q => Except.ok (Change.insert q.1 q.2)), ?_, ?_, ?_, ?_⟩
  · rfl
  · simp
  · intro j ep inner h
    simp [List.getElem?_map, List.getElem?_enum, h]
  · intro j ch h
    simp only [List.getElem?_map, List.getElem?_enum] at h
    rcases Option.map_eq_some'.mp h with ⟨q, _, hch⟩
    exact ⟨q.1, q.2, hch.symm⟩

theorem discovery_stream_inserts_witness :
    ∃ items,
      discoveryItems (sampleSettings.distributed_service () sampleEndpoints ⟨7⟩ ()) =
        Option.some items ∧
      items[2]? = Option.some (Except.ok (Change.insert 2
        (SvcTree.adaptiveConcurrency sampleSettings.concurrency
          sampleSettings.adaptive_concurrency ()
          (SvcTree.health ⟨7⟩ () "c"
            (SvcTree.timeout sampleSettings.timeout (SvcTree.inner 12)))))) := by
  obtain ⟨items, h1, _, h3, _⟩ :=
    discovery_stream_inserts sampleSettings () sampleEndpoints ⟨7⟩ ()
  exact ⟨items, h1, h3 2 "c" 12 (by rfl)⟩

/-- C9: serializing the default request config and then parsing the
serialized form yields the default config back (round-trip identity at the
default value). -/
theorem default_config_round_trip :
    parseTowerRequestConfig (serializeTowerRequestConfig TowerRequestConfig.default) =
      Option.some TowerRequestConfig.default := by
  decide

/-- C8 counterexample: a document setting `rate_limit_num = 0` parses
successfully (to the empty config with `rate_limit_num = Some 0`), so the
claim that such a document fails with a parse error is false. -/
theorem rate_limit_num_zero_parses :
    parseTowerRequestConfig [("rate_limit_num", TomlValue.int 0)] =
      Option.some { TowerRequestConfig.empty with rate_limit_num := Option.some 0 } ∧
    parseTowerRequestConfig [("rate_limit_num", TomlValue.int 0)] ≠ Option.none := by
  refine ⟨by decide, ?_⟩
  decide

/-- C8 amended: `rate_limit_num` is a plain optional `u64` field with no
positivity validation, so any value in `[0, 2^64)` — including `0` — is
accepted, yielding `Some` of it; there is no parse error for zero (only the
`concurrency` field rejects `0`). -/
theorem rate_limit_num_parse_accepts (n : Nat) (h : n < 2 ^ 64) :
    parseTowerRequestConfig [("rate_limit_num", TomlValue.int (Int.ofNat n))] =
      Option.some { TowerRequestConfig.empty with rate_limit_num := Option.some n } := by
  have h3 : n < 18446744073709551616 := by omega
  simp [parseTowerRequestConfig, parseOptField, parseDefaultField, lookupKey,
    parseU64, h3, TowerRequestConfig.empty]

theorem rate_limit_num_parse_accepts_witness :
    parseTowerRequestConfig [("rate_limit_num", TomlValue.int (Int.ofNat 0))] =
      Option.some { TowerRequestConfig.empty with rate_limit_num := Option.some 0 } :=
  rate_limit_num_parse_accepts 0 (by decide)
